import Mathlib

/-!
Verification of the PaperOffice API Wrapper (src/main.py) against its
specification.  The Python program is shallowly embedded: JSON response
bodies become an inductive `JVal`, Python functions become Lean functions,
a function that may call `sys_exit` or let an exception escape returns a
`PyResult`, and external I/O (HTTP requests, the filesystem listing) is
passed in as explicit data.  Line numbers in comments refer to
src/main.py.
-/

/-- Model of a Python/JSON value as used for API response bodies and the
configured endpoint payload.  Objects keep insertion order, as Python
dicts do. -/
inductive JVal where
  | null
  | jbool (b : Bool)
  | jnum (n : Int)
  | jstr (s : String)
  | jarr (elems : List JVal)
  | jobj (fields : List (String × JVal))

/-- Exceptions that the embedded code can raise. -/
inductive PyErr where
  | keyError (k : String)
  | unboundLocal (n : String)
  | typeError
  | ioError
  | requestError
deriving Repr, DecidableEq

/-- Result of running a Python function that can either return a value,
terminate the whole process via `sys_exit` (main.py line 36), or let an
exception propagate to its caller. -/
inductive PyResult (α : Type) where
  | ok (a : α)
  | exit
  | exn (e : PyErr)
deriving Repr, DecidableEq

/-- Association-list lookup in declaration order, modelling Python dict
key lookup. -/
def assocFind : List (String × JVal) → String → Option JVal
  | [], _ => none
  | (k, v) :: rest, key => if k = key then some v else assocFind rest key

/-- Association-list update modelling Python `d[k] = v`: overwrite an
existing key in place, else append (insertion order). -/
def assocSet : List (String × JVal) → String → JVal → List (String × JVal)
  | [], key, v => [(key, v)]
  | (k, w) :: rest, key, v =>
    if k = key then (key, v) :: rest else (k, w) :: assocSet rest key v

/-- Python `d.get(k, None)` / `d[k]` support: `lookup` is the partial
lookup, `getItem` models subscripting, raising `KeyError` when the key is
missing (subscripting a non-object also raises; we fold that into the
same error constructor since both propagate identically). -/
def JVal.lookup : JVal → String → Option JVal
  | .jobj fs, k => assocFind fs k
  | _, _ => none

def JVal.getItem (j : JVal) (k : String) : Except PyErr JVal :=
  match j.lookup k with
  | some v => .ok v
  | none => .error (.keyError k)

/-- Python truthiness of a value. -/
def JVal.truthy : JVal → Bool
  | .null => false
  | .jbool b => b
  | .jnum n => n != 0
  | .jstr s => s != ""
  | .jarr l => !l.isEmpty
  | .jobj l => !l.isEmpty

/-- Whether the value is a Python dict. -/
def JVal.isObj : JVal → Bool
  | .jobj _ => true
  | _ => false

/-- Python `x == 0.0` for a JSON value (0 and False compare equal to 0.0;
everything else does not, and the comparison never raises). -/
def pyEqZero : JVal → Bool
  | .jnum n => n == 0
  | .jbool b => !b
  | _ => false

/-- Whether `pat` occurs at the head of `text` (over character lists). -/
def startsWithPat : List Char → List Char → Bool
  | [], _ => true
  | _ :: _, [] => false
  | a :: pat, b :: text => a == b && startsWithPat pat text

/-- Whether `pat` occurs anywhere in `text` (over character lists). -/
def containsPat : List Char → List Char → Bool
  | pat, [] => startsWithPat pat []
  | pat, t :: rest => startsWithPat pat (t :: rest) || containsPat pat rest

/-- Python `pat in s` substring test. -/
def hasSubstr (pat s : String) : Bool := containsPat pat.data s.data

/-- APIWrapper.check_response_status_code (lines 369-381): transport-level
HTTP status-code check.  A falsy code or 429 returns False, 401 calls
`sys_exit`, every other code returns True. -/
def check_response_status_code (status_code : Nat) : PyResult Bool :=
  if status_code = 0 then .ok false
  else if status_code = 401 then .exit
  else if status_code = 429 then .ok false
  else .ok true

/-- APIWrapper.check_job_add_response_status_key (lines 385-416).  Note
that in the source the line `response_status = response_json["status"]`
(line 391) stands BEFORE the `try:` block, so a body without a "status"
key raises a KeyError that escapes the function; the `except` branch
only covers the body of the if/elif chain (e.g. a missing "code" key). -/
def check_job_add_response_status_key (response_json : JVal) : PyResult Bool :=
  match response_json.getItem "status" with
  | .error e => .exn e
  | .ok response_status =>
    match response_status with
    | .jstr "queued" => .ok true
    | .jstr "waiting4files" => .ok true
    | .jstr "error" =>
      match response_json.getItem "code" with
      | .error _ => .ok false
      | .ok (.jnum 429) => .ok false
      | .ok (.jnum 401) => .exit
      | .ok (.jnum 421) => .exit
      | .ok _ => .ok false
    | _ => .ok false

/-- APIWrapper.check_job_upload_response_status_key (lines 457-486), same
structure as the add-job variant but without "waiting4files"; the status
lookup is again outside the `try:`. -/
def check_job_upload_response_status_key (response_json : JVal) : PyResult Bool :=
  match response_json.getItem "status" with
  | .error e => .exn e
  | .ok response_status =>
    match response_status with
    | .jstr "queued" => .ok true
    | .jstr "error" =>
      match response_json.getItem "code" with
      | .error _ => .ok false
      | .ok (.jnum 429) => .ok false
      | .ok (.jnum 401) => .exit
      | .ok (.jnum 421) => .exit
      | .ok _ => .ok false
    | _ => .ok false

/-- Classification returned by check_job_status_response_status_key: the
four status strings it forwards, or the Python `False` it returns on any
other recognised-but-failing outcome. -/
inductive JobStatusRes where
  | completed | failed | processing | queued | fFalse
deriving Repr, DecidableEq

/-- APIWrapper.check_job_status_response_status_key (lines 523-561).  An
"error" body whose message contains RATE_LIMIT_EXCEEDED is deliberately
reported as "processing"; the membership test runs before the code
lookup, and a missing "message"/"code" key or non-string message raises
inside the `try:` and is converted to False.  The "status" lookup itself
(line 529) is outside the `try:` and escapes. -/
def check_job_status_response_status_key (response_json : JVal) : PyResult JobStatusRes :=
  match response_json.getItem "status" with
  | .error e => .exn e
  | .ok st =>
    match st with
    | .jstr "completed" => .ok .completed
    | .jstr "failed" => .ok .failed
    | .jstr "processing" => .ok .processing
    | .jstr "queued" => .ok .queued
    | .jstr "error" =>
      match response_json.getItem "message" with
      | .error _ => .ok .fFalse
      | .ok (.jstr msg) =>
        if hasSubstr "RATE_LIMIT_EXCEEDED" msg then .ok .processing
        else
          match response_json.getItem "code" with
          | .error _ => .ok .fFalse
          | .ok (.jnum 429) => .ok .fFalse
          | .ok (.jnum 401) => .exit
          | .ok (.jnum 421) => .exit
          | .ok _ => .ok .fFalse
      | .ok _ => .ok .fFalse
    | _ => .ok .fFalse

example : check_job_add_response_status_key (.jobj [("job_id", .jstr "j1")])
    = .exn (.keyError "status") := rfl

example : check_job_add_response_status_key (.jobj [("status", .jstr "queued")])
    = .ok true := rfl

example : check_job_status_response_status_key
    (.jobj [("status", .jstr "error"), ("message", .jstr "RATE_LIMIT_EXCEEDED for key")])
    = .ok .processing := rfl

/-- How a lifecycle-thread function call ends: a normal Python `return`,
an uncaught exception that kills the thread, or `sys_exit` terminating
the process. -/
inductive Fate where
  | returned
  | exnDied (e : PyErr)
  | procExit
deriving Repr, DecidableEq

/-- The observable part of the one `requests.get(downloadlink)` call made
by download_processed_job_files: `none` models the GET itself raising;
otherwise the HTTP status code, the filename extracted from a
Content-Disposition header (after the latin1/utf-8 re-decoding) when the
header is present and matches, and whether the local file write
succeeds. -/
structure DlResponse where
  status_code : Nat
  cd_filename : Option String
  write_ok : Bool
deriving Repr, DecidableEq

/-- APIWrapper.download_processed_job_files (lines 591-621).  The whole
body sits in one `try:`; the local `file_name` is only assigned inside
the 200 branch.  Both the non-200 `else:` branch (line 616) and the
`except` handler (line 620) interpolate `file_name` into their log
message, so whenever the failure happens before `file_name` is bound the
log call raises UnboundLocalError: in the `else:` branch it is caught by
the handler, whose own log line then raises again and escapes the
function.  The embedding runs the `try:` body to an outcome that also
records whether `file_name` was bound at the raise point, then applies
the handler. -/
def download_processed_job_files (tests : Bool) (getResult : Option DlResponse)
    (original_file_name : String) (timestamp : String) : Except PyErr Bool :=
  let tryBody : Except (PyErr × Option String) Bool :=
    match getResult with
    | none => .error (.requestError, none)
    | some r =>
      if r.status_code = 200 then
        let base :=
          match r.cd_filename with
          | some f => f
          | none => original_file_name
        let file_name := if tests then original_file_name else timestamp ++ "_" ++ base
        if r.write_ok then .ok true
        else .error (.ioError, some file_name)
      else
        .error (.unboundLocal "file_name", none)
  match tryBody with
  | .ok b => .ok b
  | .error (_, bound) =>
    match bound with
    | some _ => .ok false
    | none => .error (.unboundLocal "file_name")

example : download_processed_job_files false (some ⟨404, none, true⟩) "a.pdf" "ts"
    = .error (.unboundLocal "file_name") := rfl

example : download_processed_job_files false (some ⟨200, none, false⟩) "a.pdf" "ts"
    = .ok false := rfl

example : download_processed_job_files false (some ⟨200, some "b.pdf", true⟩) "a.pdf" "ts"
    = .ok true := rfl

/-- Observable outcome of the tail of process_file_in_thread after the
poll loop exited with "completed" (lines 712-726): whether the original
file was moved, the resulting processed-file counter, and how the thread
ended. -/
structure HandoffResult where
  moved : Bool
  total_files : Nat
  fate : Fate
deriving Repr, DecidableEq

/-- Lines 712-726 of process_file_in_thread: the download / move /
counter-increment sequence run once the poll loop broke out of iteration
with a "completed" status and the bound `downloadlink`.  A falsy link
returns at line 719.  Otherwise download_processed_job_files is called;
if it raises, the exception kills the thread before the move and the
increment.  If it returns, `move_processed_file` is True exactly on a
True return, the move (skipped in benchmark mode, lines 628-638) runs
only then, and `self.total_files += 1` (line 726) runs unconditionally
after the `if move_processed_file:` block.  The spec treats the
filesystem move primitive as an external collaborator, so the move
itself is modelled as succeeding. -/
def finish_completed (tests : Bool) (downloadlink : JVal) (dlResp : Option DlResponse)
    (original_file_name timestamp : String) (total_files : Nat) : HandoffResult :=
  if downloadlink.truthy then
    match download_processed_job_files tests dlResp original_file_name timestamp with
    | .ok true => ⟨!tests, total_files + 1, .returned⟩
    | .ok false => ⟨false, total_files + 1, .returned⟩
    | .error e => ⟨false, total_files, .exnDied e⟩
  else ⟨false, total_files, .returned⟩

example : finish_completed false (.jstr "http") (some ⟨200, none, false⟩) "a" "t" 0
    = ⟨false, 1, .returned⟩ := rfl

/-- One attempt of the transport loop in send_request_job_add (lines
439-453): the POST itself raising (the local `response` stays unbound),
the POST succeeding but `.json()` raising (a non-JSON body; `response`
is bound from then on), or both succeeding. -/
inductive AttemptResult where
  | postRaises
  | jsonRaises (code : Nat)
  | okResp (body : JVal) (code : Nat)

/-- What send_request_job_add hands back to process_files: either the
parsed body with the HTTP status, or the `(None, None)` pair. -/
inductive RetPair where
  | nones
  | pair (body : JVal) (code : Nat)

/-- The retry loop of send_request_job_add (lines 439-453), tracking the
attempt index `i`, remaining fuel (3 at the top call), whether the local
`response` has ever been bound, and the number of 1-second sleeps taken
so far.  On the third failing attempt the error log interpolates
`response.status_code` (line 451); if `response` was never bound this
raises UnboundLocalError, which escapes the function instead of the
intended `return None, None`. -/
def job_add_go (attempts : Nat → AttemptResult) :
    Nat → Nat → Bool → Nat → PyResult RetPair × Nat
  | _, 0, _, slept => (.ok .nones, slept)
  | i, fuel + 1, responseBound, slept =>
    match attempts i with
    | .okResp body code => (.ok (.pair body code), slept)
    | .postRaises =>
      if i = 2 then
        if responseBound then (.ok .nones, slept)
        else (.exn (.unboundLocal "response"), slept)
      else job_add_go attempts (i + 1) fuel responseBound (slept + 1)
    | .jsonRaises _ =>
      if i = 2 then (.ok .nones, slept)
      else job_add_go attempts (i + 1) fuel true (slept + 1)

/-- send_request_job_add's transport loop entered with `for i in
range(3)` (the payload-marker merge of lines 424-430 is modelled
separately by merge_marker_payload). -/
def send_request_job_add_retry (attempts : Nat → AttemptResult) : PyResult RetPair × Nat :=
  job_add_go attempts 0 3 false 0

example : send_request_job_add_retry (fun _ => .postRaises)
    = (.exn (.unboundLocal "response"), 2) := rfl

example : send_request_job_add_retry (fun _ => .jsonRaises 200) = (.ok .nones, 2) := rfl

example : send_request_job_add_retry (fun _ => .okResp (.jobj []) 200)
    = (.ok (.pair (.jobj []) 200), 0) := rfl

/-- The hard-coded poll bound of process_file_in_thread (line 670). -/
def max_retries : Nat := 30

/-- How the status-poll loop of process_file_in_thread (lines 669-710)
ends; every constructor records the number of job/status requests that
were sent. -/
inductive PollEnd where
  | transportFail (calls : Nat)
  | badCode (calls : Nat)
  | procExit (calls : Nat)
  | exn (e : PyErr) (calls : Nat)
  | failedStatus (calls : Nat)
  | statusFalse (calls : Nat)
  | timeout (calls : Nat)
  | completedAt (link : JVal) (calls : Nat)

/-- Number of job/status requests sent before the loop ended. -/
def PollEnd.calls : PollEnd → Nat
  | .transportFail c => c
  | .badCode c => c
  | .procExit c => c
  | .exn _ c => c
  | .failedStatus c => c
  | .statusFalse c => c
  | .timeout c => c
  | .completedAt _ c => c

/-- One iteration `i` of the poll loop, given the result `r` of this
iteration's send_request_job_status call (`none` models the transient
`(None, None)` return).  A `some` result ends the loop with the given
outcome; `none` means the loop continues with iteration `i + 1`.
Mirrors lines 671-710: the transport check, the status-code check
(False sets `skip_folder` and returns; modelled as `badCode`), the
status classification, the `downloadlink` capture on "completed" (line
692), the `i == max_retries - 1` timeout return (lines 699-701), and
the `next_call_in_seconds` lookup (line 705) whose KeyError kills the
thread when the field is absent outside benchmark mode. -/
def poll_step (tests : Bool) (r : Option (JVal × Nat)) (i : Nat) : Option PollEnd :=
  match r with
  | none => some (.transportFail (i + 1))
  | some (body, code) =>
    if code = 0 then some (.transportFail (i + 1))
    else
      match check_response_status_code code with
      | .exit => some (.procExit (i + 1))
      | .exn _ => some (.procExit (i + 1))
      | .ok false => some (.badCode (i + 1))
      | .ok true =>
        match check_job_status_response_status_key body with
        | .exn e => some (.exn e (i + 1))
        | .exit => some (.procExit (i + 1))
        | .ok .failed => some (.failedStatus (i + 1))
        | .ok .fFalse => some (.statusFalse (i + 1))
        | .ok .completed =>
          match body.getItem "downloadlink" with
          | .error e => some (.exn e (i + 1))
          | .ok link => some (.completedAt link (i + 1))
        | .ok .queued | .ok .processing =>
          if i = max_retries - 1 then some (.timeout (i + 1))
          else if tests then none
          else
            match body.getItem "next_call_in_seconds" with
            | .error e => some (.exn e (i + 1))
            | .ok _ => none

/-- The poll loop itself: iterate poll_step from index `i` with the given
remaining fuel (`max_retries - i` at any reachable call).  The fuel-0
case is unreachable from run_poll_loop because poll_step returns `some`
at index `max_retries - 1`. -/
def pollIter (tests : Bool) (polls : Nat → Option (JVal × Nat)) : Nat → Nat → PollEnd
  | i, 0 => .timeout i
  | i, fuel + 1 =>
    match poll_step tests (polls i) i with
    | some e => e
    | none => pollIter tests polls (i + 1) fuel

/-- The status-poll loop of process_file_in_thread (lines 669-710) run
from the start, where `polls i` is the result of the i-th
send_request_job_status call. -/
def run_poll_loop (tests : Bool) (polls : Nat → Option (JVal × Nat)) : PollEnd :=
  pollIter tests polls 0 max_retries

/-- Whether a single poll interaction keeps the loop going: the call
returned a truthy status code that passes check_response_status_code,
the body classifies as "queued" or "processing", and (outside benchmark
mode) the body carries the `next_call_in_seconds` field used for the
sleep. -/
def isContinueStep (tests : Bool) (r : Option (JVal × Nat)) : Bool :=
  match r with
  | none => false
  | some (body, code) =>
    (!(code == 0)) &&
    (match check_response_status_code code with
     | .ok true => true
     | _ => false) &&
    (match check_job_status_response_status_key body with
     | .ok .queued => true
     | .ok .processing => true
     | _ => false) &&
    (tests || (body.lookup "next_call_in_seconds").isSome)

/-- Observable result of one whole process_file_in_thread call. -/
structure ThreadResult where
  pollCalls : Nat
  moved : Bool
  totalDelta : Nat
  skipFolderSet : Bool
  fate : Fate
deriving Repr, DecidableEq

/-- Inputs of one process_file_in_thread call: the add-job response body
it receives, the result of the upload call, the poll results, the
download interaction, and the file/benchmark context. -/
structure ThreadInput where
  addBody : JVal
  upload : Option (JVal × Nat)
  polls : Nat → Option (JVal × Nat)
  dlResp : Option DlResponse
  fileName : String
  timestamp : String
  tests : Bool

/-- APIWrapper.process_file_in_thread (lines 644-726).  The two
subscripts on the add-job body (lines 647-648) raise KeyError when
absent; the upload stage mirrors lines 650-662 (a False status-code
check sets `self.skip_folder = True` and returns, line 656); the poll
loop is run_poll_loop; and a "completed" exit runs the finish_completed
tail with the captured downloadlink.  `totalDelta` is the amount added
to `self.total_files` by this call. -/
def process_file_in_thread (inp : ThreadInput) : ThreadResult :=
  match inp.addBody.getItem "job_assigned_api_endpoint" with
  | .error e => ⟨0, false, 0, false, .exnDied e⟩
  | .ok _ =>
    match inp.addBody.getItem "job_id" with
    | .error e => ⟨0, false, 0, false, .exnDied e⟩
    | .ok _ =>
      match inp.upload with
      | none => ⟨0, false, 0, false, .returned⟩
      | some (ubody, ucode) =>
        if ucode = 0 then ⟨0, false, 0, false, .returned⟩
        else
          match check_response_status_code ucode with
          | .exit => ⟨0, false, 0, false, .procExit⟩
          | .exn _ => ⟨0, false, 0, false, .procExit⟩
          | .ok false => ⟨0, false, 0, true, .returned⟩
          | .ok true =>
            match check_job_upload_response_status_key ubody with
            | .exn e => ⟨0, false, 0, false, .exnDied e⟩
            | .exit => ⟨0, false, 0, false, .procExit⟩
            | .ok false => ⟨0, false, 0, false, .returned⟩
            | .ok true =>
              match run_poll_loop inp.tests inp.polls with
              | .transportFail c => ⟨c, false, 0, false, .returned⟩
              | .badCode c => ⟨c, false, 0, true, .returned⟩
              | .procExit c => ⟨c, false, 0, false, .procExit⟩
              | .exn e c => ⟨c, false, 0, false, .exnDied e⟩
              | .failedStatus c => ⟨c, false, 0, false, .returned⟩
              | .statusFalse c => ⟨c, false, 0, false, .returned⟩
              | .timeout c => ⟨c, false, 0, false, .returned⟩
              | .completedAt link c =>
                let h := finish_completed inp.tests link inp.dlResp
                  inp.fileName inp.timestamp 0
                ⟨c, h.moved, h.total_files, false, h.fate⟩

/-- The payload-marker merge in send_request_job_add (lines 424-430).
In Python, `payload = endpoint["payload"] if endpoint["payload"] else
{}` binds the SAME dict object when the configured payload is truthy,
so the subsequent `payload["paperoffice_device_origin"] = ...` mutates
the FolderSpec's payload in place; only a falsy or non-dict payload is
replaced by a fresh local dict.  The embedding returns both the payload
sent with the request and the endpoint's payload object as it stands
after the call. -/
def merge_marker_payload (payload0 : JVal) : JVal × JVal :=
  if payload0.truthy then
    match payload0 with
    | .jobj fs =>
      let merged := JVal.jobj
        (assocSet fs "paperoffice_device_origin" (.jstr "paperoffice_api_wrapper"))
      (merged, merged)
    | _ =>
      (.jobj [("paperoffice_device_origin", .jstr "paperoffice_api_wrapper")], payload0)
  else
    (.jobj [("paperoffice_device_origin", .jstr "paperoffice_api_wrapper")], payload0)

/-- The loop body of check_remaining_requests (lines 744-760): walk the
entries in order carrying `time_to_wait`; an entry equal to 0 either
overwrites `time_to_wait` with the fixed window duration (1_minute,
1_hour) or, for an unrecognised window, returns False immediately with
no countdown.  After the loop the countdown `for i in
range(time_to_wait, -1, -1)` sleeps `time_to_wait + 1` seconds when a
wait was set.  The second component is that number of 1-second
sleeps. -/
def crr_loop : List (String × JVal) → Nat → Bool × Nat
  | [], tw => (true, if tw > 0 then tw + 1 else 0)
  | (k, v) :: rest, tw =>
    if pyEqZero v then
      if k = "1_minute" then crr_loop rest 60
      else if k = "1_hour" then crr_loop rest 3600
      else (false, 0)
    else crr_loop rest tw

/-- APIWrapper.check_remaining_requests (lines 730-764).  A falsy input
(the `.get` default None, or an empty map) returns True at line 740.  A
truthy non-dict raises AttributeError at `.items()`, which the
`except Exception` at line 762 converts to True (the fail-open path),
with no countdown.  A dict is processed by crr_loop. -/
def check_remaining_requests : Option JVal → Bool × Nat
  | none => (true, 0)
  | some rq =>
    if rq.truthy then
      match rq with
      | .jobj entries => crr_loop entries 0
      | _ => (true, 0)
    else (true, 0)

example : check_remaining_requests (some (.jarr [.jnum 1])) = (true, 0) := rfl

example : check_remaining_requests (some (.jobj [("1_minute", .jnum 0)])) = (true, 61) := rfl

example : check_remaining_requests (some (.jobj [("quota_x", .jnum 0)])) = (false, 0) := rfl

/-- APIWrapper.list_files_in_folder (lines 340-365).  `walk_files` is
the list produced by the `os.walk` loop (with "processed_originals"
directories pruned) and `listdir_files` the non-recursive
`os.listdir`-with-isfile listing; both model filesystem I/O, which the
spec scopes out.  The benchmark replacement `folder_files_list =
[folder_files_list[0]] * self.tests_amount` (lines 356-357) sits only
in the non-recursive `else:` branch; on an empty listing its
IndexError is caught at line 361 and the function returns `[]`. -/
def list_files_in_folder (tests : Bool) (tests_amount : Nat) (recursive : Bool)
    (walk_files listdir_files : List String) : List String :=
  if recursive then walk_files
  else if tests then
    match listdir_files with
    | [] => []
    | f :: _ => List.replicate tests_amount f
  else listdir_files

/-- Events emitted by one iteration of the process_files dispatch loop,
indexed by the position of the file in the folder list. -/
inductive Ev where
  | addJob (fileIdx : Nat)
  | dispatch (fileIdx : Nat)
  | governorCheck (fileIdx : Nat)
deriving Repr, DecidableEq

/-- How one iteration of the process_files loop affects the loop and the
process. -/
inductive FileDispatchOutcome where
  | skipContinue
  | breakFolder
  | processExit
  | dispatchedContinue
  | dispatchedBreak
deriving Repr, DecidableEq

/-- One iteration of the loop in APIWrapper.process_files (lines
773-808) for the file at position `idx`, given the result `r` of its
send_request_job_add call.  Mirrors: the `if not status_code: continue`
(line 787), the `break` on a failing transport status-code check (line
791), the body check whose escaping KeyError reaches the `__main__`
handler (lines 910-912) and terminates the process, the thread dispatch
(line 803, event `dispatch`), and the rate-governor check that follows
it (lines 806-808, event `governorCheck`) whose False return breaks the
folder loop.  An exception escaping send_request_job_add likewise ends
the process. -/
def process_files_iteration (idx : Nat) (r : PyResult RetPair) :
    FileDispatchOutcome × List Ev :=
  match r with
  | .exn _ => (.processExit, [.addJob idx])
  | .exit => (.processExit, [.addJob idx])
  | .ok .nones => (.skipContinue, [.addJob idx])
  | .ok (.pair body code) =>
    if code = 0 then (.skipContinue, [.addJob idx])
    else
      match check_response_status_code code with
      | .exit => (.processExit, [.addJob idx])
      | .exn _ => (.processExit, [.addJob idx])
      | .ok false => (.breakFolder, [.addJob idx])
      | .ok true =>
        match check_job_add_response_status_key body with
        | .exn _ => (.processExit, [.addJob idx])
        | .exit => (.processExit, [.addJob idx])
        | .ok false => (.skipContinue, [.addJob idx])
        | .ok true =>
          if (check_remaining_requests (body.lookup "remaining_requests")).1 then
            (.dispatchedContinue, [.addJob idx, .dispatch idx, .governorCheck idx])
          else (.dispatchedBreak, [.addJob idx, .dispatch idx, .governorCheck idx])

/-- The whole process_files loop over the per-file add results, starting
at position `idx`: concatenates the per-iteration events, stopping at a
`break` and recording whether the process was terminated. -/
def process_files_run : List (PyResult RetPair) → Nat → List Ev × Bool
  | [], _ => ([], false)
  | r :: rest, idx =>
    match process_files_iteration idx r with
    | (.skipContinue, tr) | (.dispatchedContinue, tr) =>
      let t2 := process_files_run rest (idx + 1)
      (tr ++ t2.1, t2.2)
    | (.breakFolder, tr) | (.dispatchedBreak, tr) => (tr, false)
    | (.processExit, tr) => (tr, true)

example : process_files_iteration 0 (.ok (.pair (.jobj [("job_id", .jstr "j1")]) 200))
    = (.processExit, [.addJob 0]) := rfl

example : process_files_iteration 0 (.ok (.pair (.jobj [("status", .jstr "queued")]) 429))
    = (.breakFolder, [.addJob 0]) := rfl

example : process_files_iteration 0 (.ok (.pair (.jobj [("status", .jstr "queued")]) 200))
    = (.dispatchedContinue, [.addJob 0, .dispatch 0, .governorCheck 0]) := rfl

/-- Every ended poll_step records exactly one more status call than the
iterations before it. -/
theorem poll_step_calls (tests : Bool) (r : Option (JVal × Nat)) (i : Nat) (e : PollEnd)
    (h : poll_step tests r i = some e) : e.calls = i + 1 := by
  unfold poll_step at h
  repeat' split at h
  all_goals (try exact Option.noConfusion h)
  all_goals (cases Option.some.inj h; rfl)

/-- The poll loop makes at most `i + fuel` status calls when started at
iteration `i` with the given fuel. -/
theorem pollIter_calls_le (tests : Bool) (polls : Nat → Option (JVal × Nat)) :
    ∀ fuel i, (pollIter tests polls i fuel).calls ≤ i + fuel := by
  intro fuel
  induction fuel with
  | zero => intro i; simp [pollIter, PollEnd.calls]
  | succ n ih =>
    intro i
    have hunf : pollIter tests polls i (n + 1)
        = match poll_step tests (polls i) i with
          | some e => e
          | none => pollIter tests polls (i + 1) n := rfl
    rw [hunf]
    cases hstep : poll_step tests (polls i) i with
    | some e =>
      have hc := poll_step_calls tests (polls i) i e hstep
      show e.calls ≤ i + (n + 1)
      omega
    | none =>
      have hn := ih (i + 1)
      show (pollIter tests polls (i + 1) n).calls ≤ i + (n + 1)
      omega

/-- A continue-classified interaction makes poll_step recurse at every
iteration except the last one. -/
theorem poll_step_continue (tests : Bool) (r : Option (JVal × Nat)) (i : Nat)
    (hc : isContinueStep tests r = true) (hi : ¬ i = max_retries - 1) :
    poll_step tests r i = none := by
  cases r with
  | none => simp [isContinueStep] at hc
  | some p =>
    obtain ⟨body, code⟩ := p
    unfold isContinueStep at hc
    simp only [Bool.and_eq_true] at hc
    obtain ⟨⟨⟨h1, h2⟩, h3⟩, h4⟩ := hc
    have hcode : ¬ code = 0 := by
      intro h0
      subst h0
      simp at h1
    cases hcsc : check_response_status_code code with
    | exit => rw [hcsc] at h2; simp at h2
    | exn e => rw [hcsc] at h2; simp at h2
    | ok b =>
      cases b with
      | false => rw [hcsc] at h2; simp at h2
      | true =>
        cases hcls : check_job_status_response_status_key body with
        | exn e => rw [hcls] at h3; simp at h3
        | exit => rw [hcls] at h3; simp at h3
        | ok s =>
          rw [hcls] at h3
          cases s
          case failed => simp at h3
          case fFalse => simp at h3
          case completed => simp at h3
          all_goals
            cases tests with
            | true => simp [poll_step, hcode, hcsc, hcls, hi]
            | false =>
              simp only [Bool.false_or] at h4
              obtain ⟨v, hv⟩ := Option.isSome_iff_exists.mp h4
              simp [poll_step, hcode, hcsc, hcls, hi, JVal.getItem, hv]

/-- A continue-classified interaction at the final iteration makes
poll_step return the timeout outcome. -/
theorem poll_step_last (tests : Bool) (r : Option (JVal × Nat))
    (hc : isContinueStep tests r = true) :
    poll_step tests r (max_retries - 1) = some (.timeout max_retries) := by
  cases r with
  | none => simp [isContinueStep] at hc
  | some p =>
    obtain ⟨body, code⟩ := p
    unfold isContinueStep at hc
    simp only [Bool.and_eq_true] at hc
    obtain ⟨⟨⟨h1, h2⟩, h3⟩, h4⟩ := hc
    have hcode : ¬ code = 0 := by
      intro h0
      subst h0
      simp at h1
    cases hcsc : check_response_status_code code with
    | exit => rw [hcsc] at h2; simp at h2
    | exn e => rw [hcsc] at h2; simp at h2
    | ok b =>
      cases b with
      | false => rw [hcsc] at h2; simp at h2
      | true =>
        cases hcls : check_job_status_response_status_key body with
        | exn e => rw [hcls] at h3; simp at h3
        | exit => rw [hcls] at h3; simp at h3
        | ok s =>
          rw [hcls] at h3
          cases s
          case failed => simp at h3
          case fFalse => simp at h3
          case completed => simp at h3
          all_goals simp [poll_step, hcode, hcsc, hcls, max_retries]

/-- If every remaining iteration up to the bound is continue-classified,
the loop ends in the timeout outcome after exactly the bounded number of
calls. -/
theorem pollIter_timeout (tests : Bool) (polls : Nat → Option (JVal × Nat)) :
    ∀ fuel i, 0 < fuel → i + fuel = max_retries →
    (∀ j, i ≤ j → j < max_retries → isContinueStep tests (polls j) = true) →
    pollIter tests polls i fuel = .timeout max_retries := by
  intro fuel
  induction fuel with
  | zero => intro i h0; omega
  | succ n ih =>
    intro i _ hsum hall
    have hm : max_retries = 30 := rfl
    have hunf : pollIter tests polls i (n + 1)
        = match poll_step tests (polls i) i with
          | some e => e
          | none => pollIter tests polls (i + 1) n := rfl
    rw [hunf]
    by_cases hi : i = max_retries - 1
    · subst hi
      rw [poll_step_last tests (polls (max_retries - 1))
        (hall _ (le_refl _) (by omega))]
    · have hcont := hall i (le_refl i) (by omega)
      rw [poll_step_continue tests (polls i) i hcont hi]
      exact ih (i + 1) (by omega) (by omega) (fun j hj1 hj2 => hall j (by omega) hj2)

/-- C6: for every file lifecycle the status-poll loop of
process_file_in_thread executes at most 30 iterations (it never sends a
31st job/status request), and when all 30 iterations classify as still
pending ("queued"/"processing", with the interval field available where
the code reads it), the loop ends in the timeout outcome — the
"taking too long" skip — instead of polling further or blocking. -/
theorem claim_C6_poll_bound :
    (∀ tests polls, (run_poll_loop tests polls).calls ≤ max_retries) ∧
    (∀ tests polls,
      (∀ j, j < max_retries → isContinueStep tests (polls j) = true) →
      run_poll_loop tests polls = .timeout max_retries) := by
  constructor
  · intro tests polls
    have h := pollIter_calls_le tests polls max_retries 0
    simpa [run_poll_loop] using h
  · intro tests polls hall
    exact pollIter_timeout tests polls max_retries 0 (by decide) (by simp)
      (fun j _ hj => hall j hj)

/-- A poll interaction that always reports "queued" with an interval
field, used to instantiate the C6 timeout hypothesis. -/
def polls_queued : Nat → Option (JVal × Nat) :=
  fun _ => some (.jobj [("status", .jstr "queued"), ("next_call_in_seconds", .jnum 5)], 200)

/-- Witness for claim_C6_poll_bound at a concrete always-queued poll
stream: the loop sends at most 30 requests and ends in the timeout skip
after exactly 30. -/
theorem claim_C6_poll_bound_witness :
    (run_poll_loop false polls_queued).calls ≤ max_retries ∧
    run_poll_loop false polls_queued = .timeout max_retries :=
  ⟨claim_C6_poll_bound.1 false polls_queued,
   claim_C6_poll_bound.2 false polls_queued (fun _j _ => rfl)⟩

/-- C1 counterexample: a lifecycle that reached Completed with a truthy
download link whose download_processed_job_files call returns False (the
local write fails after the filename is determined) still increments the
processed-file counter (0 becomes 1) although the original is not moved
and the task returns normally — contradicting the claim that on download
failure the task ends without incrementing the counter. -/
theorem claim_C1_counterexample :
    (finish_completed false (.jstr "http") (some ⟨200, none, false⟩) "a.pdf" "ts" 0).moved
      = false ∧
    (finish_completed false (.jstr "http") (some ⟨200, none, false⟩) "a.pdf" "ts" 0).fate
      = .returned ∧
    ¬ (finish_completed false (.jstr "http") (some ⟨200, none, false⟩) "a.pdf" "ts" 0).total_files
      = 0 := by
  refine ⟨rfl, rfl, ?_⟩
  decide

/-- C1 (amended): once the lifecycle reaches Completed with a truthy
download link (outside benchmark mode), the original is moved exactly
when download_processed_job_files returns True, but the processed-file
counter is incremented whenever the download call returns at all
(True or False); only a download call that raises ends the thread with
neither a move nor an increment. -/
theorem claim_C1_download_counter (link : JVal) (resp : Option DlResponse)
    (nm ts : String) (total : Nat) (h : link.truthy = true) :
    (download_processed_job_files false resp nm ts = .ok true →
      finish_completed false link resp nm ts total = ⟨true, total + 1, .returned⟩) ∧
    (download_processed_job_files false resp nm ts = .ok false →
      finish_completed false link resp nm ts total = ⟨false, total + 1, .returned⟩) ∧
    (∀ e, download_processed_job_files false resp nm ts = .error e →
      finish_completed false link resp nm ts total = ⟨false, total, .exnDied e⟩) := by
  refine ⟨fun hd => ?_, fun hd => ?_, fun e hd => ?_⟩ <;>
    simp [finish_completed, h, hd]

/-- Witness for claim_C1_download_counter at a concrete successful
download: the file is moved and the counter goes from 0 to 1. -/
theorem claim_C1_download_counter_witness :
    (JVal.jstr "http").truthy = true ∧
    finish_completed false (.jstr "http") (some ⟨200, none, true⟩) "a.pdf" "ts" 0
      = ⟨true, 1, .returned⟩ :=
  ⟨rfl, (claim_C1_download_counter (.jstr "http") (some ⟨200, none, true⟩)
      "a.pdf" "ts" 0 rfl).1 rfl⟩

/-- C2 (code bug): download_processed_job_files is supposed to return
False on any non-200 or I/O failure, but on a non-200 response (here
404) the error log interpolates the unassigned local `file_name`, so the
function raises UnboundLocalError instead of returning False — and the
same happens when the GET itself raises.  Only an I/O failure occurring
after `file_name` was assigned (a failing write in the 200 branch)
actually produces the documented False return. -/
theorem claim_C2_download_raises :
    download_processed_job_files false (some ⟨404, none, true⟩) "a.pdf" "ts"
      = .error (.unboundLocal "file_name") ∧
    download_processed_job_files false none "a.pdf" "ts"
      = .error (.unboundLocal "file_name") ∧
    download_processed_job_files false (some ⟨200, none, false⟩) "a.pdf" "ts"
      = .ok false := ⟨rfl, rfl, rfl⟩

/-- C3 (code bug): an add-job response body without the "status" key is
not file-transient.  The KeyError raised at the lookup placed before the
`try:` of check_job_add_response_status_key escapes through
process_files to the `__main__` handler, which terminates the process —
the second conjunct shows a following file is never reached. -/
theorem claim_C3_missing_status_fatal :
    process_files_iteration 0 (.ok (.pair (.jobj [("job_id", .jstr "j1")]) 200))
      = (.processExit, [.addJob 0]) ∧
    process_files_run
      [.ok (.pair (.jobj [("job_id", .jstr "j1")]) 200),
       .ok (.pair (.jobj [("status", .jstr "queued")]) 200)] 0
      = ([.addJob 0], true) := ⟨rfl, rfl⟩

/-- Any add-job interaction with transport status 429 makes the
process_files iteration break the folder loop. -/
theorem iteration_429_breaks (idx : Nat) (body : JVal) :
    process_files_iteration idx (.ok (.pair body 429)) = (.breakFolder, [.addJob idx]) := by
  simp [process_files_iteration, check_response_status_code]

/-- C4 counterexample: an add-job call answered with transport HTTP 429
does not merely skip the current file — the iteration outcome is not the
skip-and-continue outcome the claim describes. -/
theorem claim_C4_counterexample :
    ¬ (process_files_iteration 0 (.ok (.pair (.jobj [("status", .jstr "queued")]) 429))).1
      = .skipContinue := by
  decide

/-- C4 (amended): a transport-level HTTP 429 is folder-fatal, not
file-transient.  On the add-job call, process_files breaks out of the
folder loop, so no remaining file of that folder is dispatched (the run
itself continues — the process is not terminated); on the upload call
inside the per-file thread, the failing status-code check sets the
shared skip_folder flag and returns, which stops further dispatch in
the folder. -/
theorem claim_C4_429_folder_fatal :
    (∀ idx body, (process_files_iteration idx (.ok (.pair body 429))).1 = .breakFolder) ∧
    (∀ rest idx body,
      process_files_run (.ok (.pair body 429) :: rest) idx = ([.addJob idx], false)) ∧
    (∀ upBody polls dlResp nm ts tests,
      process_file_in_thread
        ⟨.jobj [("job_assigned_api_endpoint", .jstr "srv1"), ("job_id", .jstr "42")],
         some (upBody, 429), polls, dlResp, nm, ts, tests⟩
        = ⟨0, false, 0, true, .returned⟩) := by
  refine ⟨fun idx body => ?_, fun rest idx body => ?_, fun upBody polls dlResp nm ts tests => ?_⟩
  · rw [iteration_429_breaks]
  · simp [process_files_run, iteration_429_breaks]
  · simp [process_file_in_thread, JVal.getItem, JVal.lookup, assocFind,
      check_response_status_code]

/-- C5 counterexample: after the payload-marker merge of
send_request_job_add, an endpoint whose configured payload was the
non-empty dict with key "a" no longer holds its original payload — the
marker assignment mutated the aliased dict object, so the FolderSpec's
endpoint.payload mapping has changed. -/
theorem claim_C5_counterexample :
    (merge_marker_payload (.jobj [("a", .jnum 1)])).2 ≠ .jobj [("a", .jnum 1)] := by
  intro h
  have h2 : (JVal.jobj [("a", JVal.jnum 1),
      ("paperoffice_device_origin", JVal.jstr "paperoffice_api_wrapper")])
      = JVal.jobj [("a", JVal.jnum 1)] := h
  injection h2 with h3
  simp at h3

/-- C5 (amended): the marker merge is only local to the request when the
configured payload is falsy or not a dict (those cases build a fresh
local dict and leave the FolderSpec payload unchanged); when the payload
is a non-empty dict, the same object is mutated in place and the marker
persists in the FolderSpec's endpoint.payload after the call. -/
theorem claim_C5_payload_mutation :
    (∀ k v fs, (merge_marker_payload (.jobj ((k, v) :: fs))).2
        = .jobj (assocSet ((k, v) :: fs) "paperoffice_device_origin"
            (.jstr "paperoffice_api_wrapper"))) ∧
    (∀ p, p.truthy = false → (merge_marker_payload p).2 = p) ∧
    (∀ p, p.isObj = false → (merge_marker_payload p).2 = p) := by
  refine ⟨fun k v fs => ?_, fun p hp => ?_, fun p hp => ?_⟩
  · simp [merge_marker_payload, JVal.truthy]
  · simp [merge_marker_payload, hp]
  · cases p with
    | jobj fs => simp [JVal.isObj] at hp
    | null => simp [merge_marker_payload, JVal.truthy]
    | jbool b => unfold merge_marker_payload; split <;> rfl
    | jnum n => unfold merge_marker_payload; split <;> rfl
    | jstr s => unfold merge_marker_payload; split <;> rfl
    | jarr l => unfold merge_marker_payload; split <;> rfl

/-- Witness for claim_C5_payload_mutation: a non-empty payload gains the
marker in place, while a None payload is left untouched. -/
theorem claim_C5_payload_mutation_witness :
    (merge_marker_payload (.jobj [("a", .jnum 1)])).2
      = .jobj [("a", .jnum 1),
          ("paperoffice_device_origin", .jstr "paperoffice_api_wrapper")] ∧
    (merge_marker_payload .null).2 = .null := by
  constructor
  · have h := claim_C5_payload_mutation.1 "a" (.jnum 1) []
    simpa [assocSet] using h
  · exact claim_C5_payload_mutation.2.1 .null rfl

/-- C7 (code bug): when all three transport attempts of
send_request_job_add fail because the POST itself raises each time, the
third attempt's error log interpolates `response.status_code` while the
local `response` was never assigned, so the function raises
UnboundLocalError (after the two 1-second inter-attempt sleeps) instead
of returning the transient (None, None).  The second conjunct shows the
intended behaviour does occur when the transport failures are non-JSON
bodies, where `response` is bound: three failed attempts, two 1-second
sleeps, then the (None, None) return. -/
theorem claim_C7_retry_unbound_response :
    send_request_job_add_retry (fun _ => .postRaises)
      = (.exn (.unboundLocal "response"), 2) ∧
    send_request_job_add_retry (fun _ => .jsonRaises 200) = (.ok .nones, 2) := ⟨rfl, rfl⟩

/-- C8 (code bug): the benchmark replacement of the file list by
tests_amount copies of the first file only happens in the non-recursive
branch of list_files_in_folder.  With recursive=true, benchmark mode
enabled and tests_amount=3 over a folder listing two files, the code
keeps the full walk list instead of the claimed three copies of the
first file. -/
theorem claim_C8_benchmark_not_recursive :
    list_files_in_folder true 3 true ["f1", "f2"] ["f1", "f2"] = ["f1", "f2"] ∧
    list_files_in_folder true 3 false ["f1", "f2"] ["f1", "f2"] = ["f1", "f1", "f1"] ∧
    ["f1", "f2"] ≠ ["f1", "f1", "f1"] := ⟨rfl, rfl, by decide⟩

/-- C9 counterexample: for a successfully-added job (status "queued",
HTTP 200), the dispatch-loop iteration emits the thread dispatch BEFORE
the rate-governor check — the governor check does not precede the
dispatch as the claim states. -/
theorem claim_C9_counterexample :
    (process_files_iteration 0
        (.ok (.pair (.jobj [("status", .jstr "queued"), ("job_id", .jstr "j7")]) 200))).2
      = [.addJob 0, .dispatch 0, .governorCheck 0] ∧
    ¬ ((process_files_iteration 0
        (.ok (.pair (.jobj [("status", .jstr "queued"), ("job_id", .jstr "j7")]) 200))).2.indexOf
          (.governorCheck 0)
        < (process_files_iteration 0
        (.ok (.pair (.jobj [("status", .jstr "queued"), ("job_id", .jstr "j7")]) 200))).2.indexOf
          (.dispatch 0)) := by
  refine ⟨rfl, ?_⟩
  decide

/-- C9 (amended): in every iteration of the process_files loop the
events are either just the add-job call (no dispatch, no governor
check), or the add-job call followed by the thread dispatch and then —
immediately after the dispatch, not before it — exactly one
rate-governor check; the check is part of the dispatch loop, never of
the per-file polling loop. -/
theorem claim_C9_governor_after_dispatch (idx : Nat) (r : PyResult RetPair) :
    (process_files_iteration idx r).2 = [.addJob idx] ∨
    (process_files_iteration idx r).2 = [.addJob idx, .dispatch idx, .governorCheck idx] := by
  cases r with
  | exn e => exact Or.inl rfl
  | exit => exact Or.inl rfl
  | ok rp =>
    cases rp with
    | nones => exact Or.inl rfl
    | pair body code =>
      by_cases h0 : code = 0
      · exact Or.inl (by simp [process_files_iteration, h0])
      · cases h1 : check_response_status_code code with
        | exit => exact Or.inl (by simp [process_files_iteration, h0, h1])
        | exn e => exact Or.inl (by simp [process_files_iteration, h0, h1])
        | ok b =>
          cases b with
          | false => exact Or.inl (by simp [process_files_iteration, h0, h1])
          | true =>
            cases h2 : check_job_add_response_status_key body with
            | exit => exact Or.inl (by simp [process_files_iteration, h0, h1, h2])
            | exn e => exact Or.inl (by simp [process_files_iteration, h0, h1, h2])
            | ok b2 =>
              cases b2 with
              | false => exact Or.inl (by simp [process_files_iteration, h0, h1, h2])
              | true =>
                by_cases h3 :
                  (check_remaining_requests (body.lookup "remaining_requests")).1 = true
                · exact Or.inr (by simp [process_files_iteration, h0, h1, h2, h3])
                · exact Or.inr (by simp [process_files_iteration, h0, h1, h2, h3])

/-- C10: for every present-but-malformed remaining-quota value — any
truthy object that is not a dict, whose `.items()` inspection raises —
check_remaining_requests catches the exception and returns True with no
countdown pause, so dispatch proceeds: the fail-open behaviour covers
all malformed quota data, not just the absent map. -/
theorem claim_C10_governor_fail_open (rq : JVal) (h1 : rq.truthy = true)
    (h2 : rq.isObj = false) :
    check_remaining_requests (some rq) = (true, 0) := by
  cases rq
  case jobj fs => simp [JVal.isObj] at h2
  all_goals simp [check_remaining_requests]

/-- Witness for claim_C10_governor_fail_open at the claim's own example
of a list instead of a mapping. -/
theorem claim_C10_governor_fail_open_witness :
    (JVal.jarr [.jnum 1]).truthy = true ∧ (JVal.jarr [.jnum 1]).isObj = false ∧
    check_remaining_requests (some (.jarr [.jnum 1])) = (true, 0) :=
  ⟨rfl, rfl, claim_C10_governor_fail_open (.jarr [.jnum 1]) rfl rfl⟩
